import Mathlib

/-
Verification development for the SuperNavi PathoWeb extension's
Case Status Resolution Engine (background service worker) and the
content-script Request Coordinator.

JavaScript strings are modelled as lists of characters; JS string
truthiness ("" is falsy) becomes emptiness tests; `Map` becomes an
association list with overwrite-by-key semantics; asynchronous network
calls become explicit outcome parameters (a `FetchOutcome` oracle saying
what the one `fetch` at that call site did); JS exceptions become
`Except JsError`.
-/

namespace SuperNavi

/-- A JavaScript string, modelled as its character sequence. -/
abbrev JStr := List Char

/-- `s.toUpperCase()` on a JS string. -/
def jsToUpper (s : JStr) : JStr := s.map Char.toUpper

/-- JS `a || b` for an optional string field: `null`/absent and the empty
string are falsy and select `b`. -/
def jsOrStr (a : Option JStr) (b : JStr) : JStr :=
  match a with
  | none => b
  | some s => if s = [] then b else s

/-- content.js `normalizePrefix`: uppercase, then collapse a leading
`PA` to `AP` (`caseId.toUpperCase().replace(/^PA/, 'AP')`). -/
def normalizePrefix (caseId : JStr) : JStr :=
  let u := jsToUpper caseId
  if u.take 2 = "PA".toList then "AP".toList ++ u.drop 2 else u

/-- The cache key computed at the top of `getCaseStatus`:
`caseBase.toUpperCase()`. -/
def cacheKeyOf (caseBase : JStr) : JStr := jsToUpper caseBase

/-- A slide record as returned by the edge agent
(`s.slideId`, `s.filename`, `s.width`, `s.height`). -/
structure EdgeSlide where
  slideId : JStr
  filename : JStr
  width : Nat
  height : Nat
deriving DecidableEq, Repr

/-- The JSON body the edge agent returns for
`/v1/cases/by-ref/...`: an optional `caseBase` field and an optional
`slides` array (`none` models an absent or null field; `some []` is an
empty — but present — listing, which is truthy in JS). -/
structure EdgeData where
  caseBase : Option JStr
  slides : Option (List EdgeSlide)
deriving DecidableEq, Repr

/-- One entry of `readySlides` in the common status shape, as built by
the edge-mapping branch of `getCaseStatus`. -/
structure ReadySlide where
  slideId : JStr
  label : Option JStr
  filename : JStr
  index : Nat
  thumbUrl : JStr
  width : Nat
  height : Nat
deriving DecidableEq, Repr

/-- The status snapshot shape flowing between background and content
scripts (`caseBase`, `externalCaseId`, `readySlides`, `processingSlides`,
`unconfirmedCandidates`, `source`).  Cloud responses are carried in the
same shape; fields the server omits are `none`/`[]`. -/
structure Snapshot where
  caseBase : Option JStr
  externalCaseId : Option JStr
  readySlides : List ReadySlide
  processingSlides : List ReadySlide
  unconfirmedCandidates : List ReadySlide
  source : Option JStr
deriving DecidableEq, Repr

/-- A `statusCache` entry: `{ data, timestamp }`. -/
structure CacheEntry where
  data : Snapshot
  timestamp : Nat
deriving DecidableEq, Repr

/-- The in-memory `statusCache` `Map`, as an association list where the
first binding for a key wins. -/
abbrev Cache := List (JStr × CacheEntry)

/-- `statusCache.get(k)`. -/
def cacheGet (c : Cache) (k : JStr) : Option CacheEntry :=
  match c with
  | [] => none
  | (k', v) :: rest => if k' = k then some v else cacheGet rest k

/-- `statusCache.delete(k)`. -/
def cacheDelete (c : Cache) (k : JStr) : Cache :=
  c.filter (fun p => p.1 ≠ k)

/-- `statusCache.set(k, v)` (overwrite-by-key). -/
def cacheSet (c : Cache) (k : JStr) (v : CacheEntry) : Cache :=
  (k, v) :: cacheDelete c k

/-- `CACHE_TTL_MS = 30_000`. -/
def CACHE_TTL_MS : Nat := 30000

/-- `EDGE_TIMEOUT_MS = 3_000`. -/
def EDGE_TIMEOUT_MS : Nat := 3000

/-- Persisted configuration read by `getConfig` (the fields the engine
consults; `apiKey`/`deviceToken` default to the empty string). -/
structure Config where
  apiBaseUrl : JStr
  apiKey : JStr
  deviceToken : JStr
  debug : Bool
deriving DecidableEq, Repr

/-- The JS exceptions the background worker can raise. -/
inductive JsError where
  /-- `throw new Error('Not configured: pair the device or set an API key')` -/
  | notConfigured
  /-- `throw new Error('API <status>: <text>')` after a non-ok response -/
  | apiError (status : Nat)
  /-- `fetch` itself rejected (abort/timeout or transport error) -/
  | fetchFailed
  /-- `response.json()` rejected (malformed payload) -/
  | malformedJson
deriving DecidableEq, Repr

/-- What a single `fetch` call did, from the caller's point of view:
it timed out (aborted), failed at transport level, or produced a
response with an HTTP status and a body that either parses as JSON of
type `α` (`some`) or is malformed (`none`). -/
inductive FetchOutcome (α : Type) where
  | timeout
  | transportError
  | response (status : Nat) (body : Option α)
deriving DecidableEq, Repr

/-- `response.ok`: status in the 200–299 range. -/
def responseOk (status : Nat) : Bool := 200 ≤ status && status < 300

/-- The auth headers assembled by `apiCall`: prefer the device token,
else the legacy API key, else none. -/
def authHeaders (config : Config) : List (JStr × JStr) :=
  if config.deviceToken ≠ [] then [("x-device-token".toList, config.deviceToken)]
  else if config.apiKey ≠ [] then [("x-supernavi-key".toList, config.apiKey)]
  else []

/-- The full header object of an `apiCall` request:
`Content-Type`, then the auth headers, then the caller's
`options.headers` (object spread, later keys overriding earlier). -/
def apiCallHeaders (config : Config) (optHeaders : List (JStr × JStr)) :
    List (JStr × JStr) :=
  (("Content-Type".toList, "application/json".toList) :: authHeaders config) ++ optHeaders

/-- `apiCall(path, options)`: fails fast with the not-configured error
when neither credential is set, otherwise performs the fetch and either
returns the parsed JSON or throws.  The second component records whether
a network request was actually issued. -/
def apiCall {α : Type} (config : Config) (outcome : FetchOutcome α) :
    Except JsError α × Bool :=
  if config.deviceToken = [] ∧ config.apiKey = [] then (.error .notConfigured, false)
  else
    match outcome with
    | .timeout => (.error .fetchFailed, true)
    | .transportError => (.error .fetchFailed, true)
    | .response status body =>
        if responseOk status then
          match body with
          | some v => (.ok v, true)
          | none => (.error .malformedJson, true)
        else (.error (.apiError status), true)

/-- The body of `edgeCall`'s `try` block, before the surrounding
`catch`: the fetch may throw (abort/transport), a non-ok response
returns `null`, and `response.json()` may throw on a malformed body. -/
def edgeFetchRaw {α : Type} (outcome : FetchOutcome α) :
    Except JsError (Option α) :=
  match outcome with
  | .timeout => .error .fetchFailed
  | .transportError => .error .fetchFailed
  | .response status body =>
      if responseOk status then
        match body with
        | some v => .ok (some v)
        | none => .error .malformedJson
      else .ok none

/-- `edgeCall`'s `catch` clause: any thrown error collapses to `null`. -/
def jsTryCatchNull {α : Type} (x : Except JsError (Option α)) : Option α :=
  match x with
  | .ok v => v
  | .error _ => none

/-- The value `edgeCall` returns: `null` immediately when no edge agent
id is known, otherwise the guarded fetch result. -/
def edgeCallValue {α : Type} (edgeAgentId : Option JStr)
    (outcome : FetchOutcome α) : Option α :=
  match edgeAgentId with
  | none => none
  | some _ => jsTryCatchNull (edgeFetchRaw outcome)

/-- `edgeCall(path, options)` as seen by its caller: the `Except` layer
records whether it raised, and the Bool records whether a network
request was issued (`false` exactly when the agent id was unknown). -/
def edgeCall {α : Type} (edgeAgentId : Option JStr)
    (outcome : FetchOutcome α) : Except JsError (Option α) × Bool :=
  match edgeAgentId with
  | none => (.ok none, false)
  | some _ => (.ok (jsTryCatchNull (edgeFetchRaw outcome)), true)

/-- The edge-branch mapping in `getCaseStatus`: build the common status
shape from the edge response, tagging `source: 'edge'`. -/
def mapEdgeSnapshot (edgeAgentId : JStr) (caseBase : JStr) (d : EdgeData)
    (slides : List EdgeSlide) : Snapshot :=
  { caseBase := some (jsOrStr d.caseBase caseBase)
    externalCaseId := some ("pathoweb:".toList ++ jsToUpper caseBase)
    readySlides := slides.enum.map (fun p =>
      { slideId := p.2.slideId
        label := none
        filename := p.2.filename
        index := p.1 + 1
        thumbUrl := "/edge/".toList ++ edgeAgentId ++ "/v1/slides/".toList ++
          p.2.slideId ++ "/thumb".toList
        width := p.2.width
        height := p.2.height })
    processingSlides := []
    unconfirmedCandidates := []
    source := some "edge".toList }

instance exceptDecEq {ε α : Type} [DecidableEq ε] [DecidableEq α] :
    DecidableEq (Except ε α) := fun x y =>
  match x, y with
  | .ok a, .ok b =>
      if h : a = b then isTrue (congrArg Except.ok h)
      else isFalse (fun hh => h (Except.ok.inj hh))
  | .error a, .error b =>
      if h : a = b then isTrue (congrArg Except.error h)
      else isFalse (fun hh => h (Except.error.inj hh))
  | .ok _, .error _ => isFalse (fun hh => Except.noConfusion hh)
  | .error _, .ok _ => isFalse (fun hh => Except.noConfusion hh)

/-- The observable outcome of one `getCaseStatus` call: its return value
or thrown error, the cache afterwards, and how many times each source
client was invoked. -/
structure StatusResult where
  result : Except JsError Snapshot
  cache : Cache
  edgeCalls : Nat
  cloudCalls : Nat
deriving DecidableEq, Repr

/-- The cache-miss path of `getCaseStatus` (edge-first version): try the
edge agent; if the response carries a `slides` field (even an empty
array — truthy in JS), map it, tag it `edge`, cache it and return it;
otherwise fall back to one cloud `apiCall`, caching its result verbatim
on success and propagating its error on failure. -/
def getCaseStatusMiss (now : Nat) (edgeAgentId : Option JStr)
    (edgeOutcome : FetchOutcome EdgeData) (cloud : Except JsError Snapshot)
    (cache : Cache) (caseBase : JStr) : StatusResult :=
  let cacheKey := cacheKeyOf caseBase
  match edgeCallValue edgeAgentId edgeOutcome with
  | some d =>
      match d.slides with
      | some slides =>
          let mapped := mapEdgeSnapshot (edgeAgentId.getD []) caseBase d slides
          { result := .ok mapped
            cache := cacheSet cache cacheKey { data := mapped, timestamp := now }
            edgeCalls := 1, cloudCalls := 0 }
      | none =>
          match cloud with
          | .ok data =>
              { result := .ok data
                cache := cacheSet cache cacheKey { data := data, timestamp := now }
                edgeCalls := 1, cloudCalls := 1 }
          | .error e => { result := .error e, cache := cache, edgeCalls := 1, cloudCalls := 1 }
  | none =>
      match cloud with
      | .ok data =>
          { result := .ok data
            cache := cacheSet cache cacheKey { data := data, timestamp := now }
            edgeCalls := 1, cloudCalls := 1 }
      | .error e => { result := .error e, cache := cache, edgeCalls := 1, cloudCalls := 1 }

/-- `getCaseStatus(caseBase)` (edge-first version): serve a fresh cache
entry with no network activity, otherwise run the miss path.  `now` is
`Date.now()`; `cloud` is what the one cloud `apiCall` at this call site
would yield. -/
def getCaseStatus (now : Nat) (edgeAgentId : Option JStr)
    (edgeOutcome : FetchOutcome EdgeData) (cloud : Except JsError Snapshot)
    (cache : Cache) (caseBase : JStr) : StatusResult :=
  let cacheKey := cacheKeyOf caseBase
  match cacheGet cache cacheKey with
  | some entry =>
      if now - entry.timestamp < CACHE_TTL_MS then
        { result := .ok entry.data, cache := cache, edgeCalls := 0, cloudCalls := 0 }
      else getCaseStatusMiss now edgeAgentId edgeOutcome cloud cache caseBase
  | none => getCaseStatusMiss now edgeAgentId edgeOutcome cloud cache caseBase

/-- `getCaseStatus` of the cloud-only background worker (background.js):
same cache discipline, single cloud source. -/
def getCaseStatusCloudOnly (now : Nat) (cloud : Except JsError Snapshot)
    (cache : Cache) (caseBase : JStr) : StatusResult :=
  let cacheKey := cacheKeyOf caseBase
  match cacheGet cache cacheKey with
  | some entry =>
      if now - entry.timestamp < CACHE_TTL_MS then
        { result := .ok entry.data, cache := cache, edgeCalls := 0, cloudCalls := 0 }
      else
        match cloud with
        | .ok data =>
            { result := .ok data
              cache := cacheSet cache cacheKey { data := data, timestamp := now }
              edgeCalls := 0, cloudCalls := 1 }
        | .error e => { result := .error e, cache := cache, edgeCalls := 0, cloudCalls := 1 }
  | none =>
      match cloud with
      | .ok data =>
          { result := .ok data
            cache := cacheSet cache cacheKey { data := data, timestamp := now }
            edgeCalls := 0, cloudCalls := 1 }
      | .error e => { result := .error e, cache := cache, edgeCalls := 0, cloudCalls := 1 }

/-- The JSON the edge agent returns for a `link-to-case` request:
`edgeResult.ok` is the success flag the caller tests. -/
structure EdgeLinkResp where
  ok : Bool
deriving DecidableEq, Repr

/-- `exceptIsError x`: whether the promise rejected (its `.catch` fires). -/
def exceptIsError {ε α : Type} (x : Except ε α) : Bool :=
  match x with
  | .ok _ => false
  | .error _ => true

/-- The observable outcome of one `attachSlide` call (edge-first
worker): the return value / thrown error, whether the edge call issued
network I/O, whether the fire-and-forget cloud mirror was issued and
whether its `.catch` logging fired, and whether the awaited cloud
fallback was issued. -/
structure AttachOutcome where
  result : Except JsError Unit
  edgeFetched : Bool
  cloudMirrorCalled : Bool
  mirrorErrorLogged : Bool
  cloudFallbackCalled : Bool
deriving DecidableEq, Repr

/-- `attachSlide(slideId, caseBase, patientData)`: try the edge
`link-to-case` first; on edge success, fire-and-forget a cloud sync
(`.catch` only logs) and return success; otherwise await the cloud
attach, returning success or propagating its error.  `cloudAttach` is
the result of the one cloud attach `apiCall` the active branch issues. -/
def attachSlide (edgeAgentId : Option JStr)
    (edgeOutcome : FetchOutcome EdgeLinkResp)
    (cloudAttach : Except JsError Unit) : AttachOutcome :=
  let fallback : AttachOutcome :=
    match cloudAttach with
    | .ok _ =>
        { result := .ok (), edgeFetched := edgeAgentId.isSome
          cloudMirrorCalled := false, mirrorErrorLogged := false
          cloudFallbackCalled := true }
    | .error e =>
        { result := .error e, edgeFetched := edgeAgentId.isSome
          cloudMirrorCalled := false, mirrorErrorLogged := false
          cloudFallbackCalled := true }
  match edgeCallValue edgeAgentId edgeOutcome with
  | some r =>
      if r.ok then
        { result := .ok (), edgeFetched := edgeAgentId.isSome
          cloudMirrorCalled := true
          mirrorErrorLogged := exceptIsError cloudAttach
          cloudFallbackCalled := false }
      else fallback
  | none => fallback

/-- The observable outcome of one mutation message handler run: the
success flag of the `ATTACH_RESULT`/`DETACH_RESULT` message it sends,
the error it reports on failure, the cache afterwards, and the network
activity. -/
structure MutationStep where
  success : Bool
  error : Option JsError
  cache : Cache
  edgeFetched : Bool
  cloudCalls : Nat
deriving DecidableEq, Repr

/-- The `ATTACH_SLIDE` message handler (edge-first worker): run
`attachSlide`; on success
`statusCache.delete(msg.caseBase.toUpperCase())` before sending the
success message; on failure send the error and leave the cache alone. -/
def handleAttachSlide (edgeAgentId : Option JStr)
    (edgeOutcome : FetchOutcome EdgeLinkResp)
    (cloudAttach : Except JsError Unit) (cache : Cache) (caseBase : JStr) :
    MutationStep :=
  let a := attachSlide edgeAgentId edgeOutcome cloudAttach
  let cloudCount := (if a.cloudMirrorCalled then 1 else 0) +
    (if a.cloudFallbackCalled then 1 else 0)
  match a.result with
  | .ok _ =>
      { success := true, error := none
        cache := cacheDelete cache (jsToUpper caseBase)
        edgeFetched := a.edgeFetched, cloudCalls := cloudCount }
  | .error e =>
      { success := false, error := some e, cache := cache
        edgeFetched := a.edgeFetched, cloudCalls := cloudCount }

/-- The `DETACH_SLIDE` message handler: one awaited cloud `apiCall` to
the detach endpoint — the handler never consults the edge agent, so no
edge network I/O occurs even when `edgeAgentId` is known
(`edgeAgentId` is a parameter only so theorems can state that); on
success `statusCache.delete(msg.caseBase.toUpperCase())` before sending
the success message. -/
def handleDetachSlide (edgeAgentId : Option JStr)
    (cloudDetach : Except JsError Unit) (cache : Cache) (caseBase : JStr) :
    MutationStep :=
  match edgeAgentId, cloudDetach with
  | _, .ok _ =>
      { success := true, error := none
        cache := cacheDelete cache (jsToUpper caseBase)
        edgeFetched := false, cloudCalls := 1 }
  | _, .error e =>
      { success := false, error := some e, cache := cache
        edgeFetched := false, cloudCalls := 1 }

/-- The device credentials returned by the pairing-claim endpoint. -/
structure PairingResponse where
  deviceToken : JStr
  deviceId : JStr
  deviceName : JStr
deriving DecidableEq, Repr

/-- The `PAIRING_RESULT` message payload. -/
inductive PairingResult where
  | success (deviceName : JStr)
  | failure (error : JStr)
deriving DecidableEq, Repr

/-- The observable outcome of one `CLAIM_PAIRING_CODE` handler run:
the request URL, the headers of the HTTP request it issued (`none`
would mean no request was issued at all), the result message, and the
credentials written to `chrome.storage.sync` on success. -/
structure PairingStep where
  url : JStr
  requestHeaders : Option (List (JStr × JStr))
  result : PairingResult
  storedCredentials : Option PairingResponse
deriving DecidableEq, Repr

/-- The `CLAIM_PAIRING_CODE` message handler: a direct `fetch` of the
pairing-claim endpoint (not routed through `apiCall` — no credential
check, no auth header, only `Content-Type`); 404, 410 and other non-ok
statuses map to distinct error messages; fetch/parse errors collapse to
the generic connection error; on success the returned device
credentials are stored. -/
def claimPairingCode (config : Config) (outcome : FetchOutcome PairingResponse) :
    PairingStep :=
  { url := config.apiBaseUrl ++ "/api/ui-bridge/pairing/claim".toList
    requestHeaders := some [("Content-Type".toList, "application/json".toList)]
    result :=
      match outcome with
      | .timeout => .failure "Erro de conexao".toList
      | .transportError => .failure "Erro de conexao".toList
      | .response status body =>
          if responseOk status then
            match body with
            | some d => .success d.deviceName
            | none => .failure "Erro de conexao".toList
          else
            .failure (if status = 404 then "Codigo invalido".toList
              else if status = 410 then "Codigo expirado ou ja usado".toList
              else "Erro ".toList ++ (Nat.repr status).toList)
    storedCredentials :=
      match outcome with
      | .response status body =>
          if responseOk status then
            match body with
            | some d => some d
            | none => none
          else none
      | _ => none }

/-- A `CASE_STATUS` message as sent by the background worker:
`{ type: 'CASE_STATUS', caseBase: msg.caseBase, ...data }`. -/
structure CaseStatusMsg where
  caseBase : JStr
  data : Snapshot
deriving DecidableEq, Repr

/-- The content-script state the coordinator logic touches: the current
case pointer and the last status message it stored. -/
structure ContentState where
  currentCaseBase : Option JStr
  currentStatus : Option CaseStatusMsg
deriving DecidableEq, Repr

/-- The `CASE_STATUS` branch of the content script's
`chrome.runtime.onMessage` listener:
`currentStatus = msg; handleStatusUpdate(msg);` — it stores the message
and hands it to the UI layer unconditionally, without comparing the
message's `caseBase` against `currentCaseBase`.  The Bool records
whether `handleStatusUpdate` (delivery to the UI) ran. -/
def onCaseStatusMessage (st : ContentState) (msg : CaseStatusMsg) :
    ContentState × Bool :=
  ({ st with currentStatus := some msg }, true)

/-- A minimal concrete snapshot, used to instantiate witnesses: the
shape a cloud response takes when the case has no slides and the server
sets no provenance field. -/
def sampleSnapshot : Snapshot :=
  { caseBase := none, externalCaseId := none, readySlides := []
    processingSlides := [], unconfirmedCandidates := [], source := none }

/-- `hasEdgeFetchFailed outcome`: the fetch timed out, failed at
transport level, got a non-success status, or a malformed body. -/
def hasEdgeFetchFailed {α : Type} (outcome : FetchOutcome α) : Bool :=
  match outcome with
  | .timeout => true
  | .transportError => true
  | .response status body => !responseOk status || body.isNone

theorem cacheGet_cacheDelete_self (c : Cache) (k : JStr) :
    cacheGet (cacheDelete c k) k = none := by
  induction c with
  | nil => rfl
  | cons p rest ih =>
      by_cases h : p.1 = k
      · simpa [cacheDelete, List.filter_cons, h] using ih
      · simpa [cacheDelete, List.filter_cons, h, cacheGet] using ih

theorem cacheGet_cacheSet_self (c : Cache) (k : JStr) (v : CacheEntry) :
    cacheGet (cacheSet c k v) k = some v := by
  simp [cacheSet, cacheGet]

/-- When the cached entry for the key is absent or expired,
`getCaseStatus` runs its miss path. -/
theorem getCaseStatus_eq_miss (now : Nat) (edgeAgentId : Option JStr)
    (edgeOutcome : FetchOutcome EdgeData) (cloud : Except JsError Snapshot)
    (cache : Cache) (caseBase : JStr)
    (hmiss : ∀ e, cacheGet cache (cacheKeyOf caseBase) = some e →
      ¬ (now - e.timestamp < CACHE_TTL_MS)) :
    getCaseStatus now edgeAgentId edgeOutcome cloud cache caseBase =
      getCaseStatusMiss now edgeAgentId edgeOutcome cloud cache caseBase := by
  unfold getCaseStatus
  cases hget : cacheGet cache (cacheKeyOf caseBase) with
  | none => simp [hget]
  | some e => simp [hget, hmiss e hget]

/-- The miss path always invokes the edge client exactly once. -/
theorem getCaseStatusMiss_edgeCalls (now : Nat) (edgeAgentId : Option JStr)
    (edgeOutcome : FetchOutcome EdgeData) (cloud : Except JsError Snapshot)
    (cache : Cache) (caseBase : JStr) :
    (getCaseStatusMiss now edgeAgentId edgeOutcome cloud cache caseBase).edgeCalls = 1 := by
  unfold getCaseStatusMiss
  cases he : edgeCallValue edgeAgentId edgeOutcome with
  | none => cases cloud <;> rfl
  | some d =>
      cases hs : d.slides with
      | none => cases cloud <;> simp [hs]
      | some slides => simp [hs]

theorem char_toNat_ofNat (m : Nat) (hm : m.isValidChar) :
    (Char.ofNat m).toNat = m := by
  rw [Char.ofNat, dif_pos hm]
  rfl

theorem char_toUpper_idem (c : Char) : c.toUpper.toUpper = c.toUpper := by
  unfold Char.toUpper
  by_cases h : c.toNat ≥ 97 ∧ c.toNat ≤ 122
  · rw [if_pos h]
    have hv : (c.toNat - 32).isValidChar := Or.inl (by omega)
    have ht : (Char.ofNat (c.toNat - 32)).toNat = c.toNat - 32 :=
      char_toNat_ofNat _ hv
    rw [ht, if_neg (by omega)]
  · rw [if_neg h, if_neg h]

theorem jsToUpper_idem (l : JStr) : jsToUpper (jsToUpper l) = jsToUpper l := by
  induction l with
  | nil => rfl
  | cons c rest ih =>
      simp only [jsToUpper, List.map_cons] at *
      exact List.cons_eq_cons.mpr ⟨char_toUpper_idem c, ih⟩

/-- The background cache key of an already-normalized case id is the id
itself: uppercasing is idempotent and fixes the `AP` prefix. -/
theorem cacheKeyOf_normalizePrefix (a : JStr) :
    cacheKeyOf (normalizePrefix a) = normalizePrefix a := by
  unfold cacheKeyOf normalizePrefix
  by_cases h : (jsToUpper a).take 2 = "PA".toList
  · simp only [h, if_pos]
    show jsToUpper ("AP".toList ++ (jsToUpper a).drop 2) =
      "AP".toList ++ (jsToUpper a).drop 2
    have hAP : jsToUpper ("AP".toList) = "AP".toList := by decide
    have hdrop : jsToUpper ((jsToUpper a).drop 2) = (jsToUpper a).drop 2 := by
      show ((jsToUpper a).drop 2).map Char.toUpper = (jsToUpper a).drop 2
      rw [List.map_drop]
      show (jsToUpper (jsToUpper a)).drop 2 = (jsToUpper a).drop 2
      rw [jsToUpper_idem]
    show jsToUpper ("AP".toList ++ (jsToUpper a).drop 2) = _
    unfold jsToUpper
    rw [List.map_append]
    show jsToUpper ("AP".toList) ++ jsToUpper ((jsToUpper a).drop 2) = _
    rw [hAP, hdrop]
    rfl
  · simp only [h, if_neg, ite_false]
    exact jsToUpper_idem a

/-- Claim C1: for every `getCaseStatus` call on a cache miss, the
engine attempts edge resolution first (the edge client is invoked,
once); if the edge source yields a response containing a non-null slide
listing (even an empty list), the cloud source is never called; and if
the edge source returns Unavailable (`null`) for any reason, the cloud
source is called exactly once. -/
theorem c1_edge_first_cloud_fallback (now : Nat) (edgeAgentId : Option JStr)
    (edgeOutcome : FetchOutcome EdgeData) (cloud : Except JsError Snapshot)
    (cache : Cache) (caseBase : JStr)
    (hmiss : ∀ e, cacheGet cache (cacheKeyOf caseBase) = some e →
      ¬ (now - e.timestamp < CACHE_TTL_MS)) :
    (getCaseStatus now edgeAgentId edgeOutcome cloud cache caseBase).edgeCalls = 1 ∧
    (∀ d slides, edgeCallValue edgeAgentId edgeOutcome = some d →
       d.slides = some slides →
       (getCaseStatus now edgeAgentId edgeOutcome cloud cache caseBase).cloudCalls = 0) ∧
    (edgeCallValue edgeAgentId edgeOutcome = none →
       (getCaseStatus now edgeAgentId edgeOutcome cloud cache caseBase).cloudCalls = 1) := by
  rw [getCaseStatus_eq_miss now edgeAgentId edgeOutcome cloud cache caseBase hmiss]
  refine ⟨getCaseStatusMiss_edgeCalls now edgeAgentId edgeOutcome cloud cache caseBase,
    ?_, ?_⟩
  · intro d slides hd hs
    unfold getCaseStatusMiss
    rw [hd]
    simp [hs]
  · intro hnone
    unfold getCaseStatusMiss
    rw [hnone]
    cases cloud <;> rfl

/-- Witness for C1 at a concrete input: empty cache (a miss), no edge
agent known (edge Unavailable), so the cloud client is called exactly
once. -/
theorem c1_witness :
    (getCaseStatus 0 none FetchOutcome.timeout (Except.ok sampleSnapshot)
      [] ("AP000123".toList)).cloudCalls = 1 :=
  (c1_edge_first_cloud_fallback 0 none FetchOutcome.timeout
    (Except.ok sampleSnapshot) [] ("AP000123".toList)
    (fun e he => by simp [cacheGet] at he)).2.2 rfl

/-- Claim C3: the cache TTL is fixed at 30 seconds; a read at time `t`
of an entry written at `t0` is served from the cache with no source
client invoked exactly when `t - t0 < TTL`, and a read with
`t - t0 ≥ TTL` treats the entry as absent (the edge-first worker runs
its full miss path; the cloud-only worker calls the cloud and returns
the fresh result, never the expired snapshot). -/
theorem c3_cache_ttl (now : Nat) (edgeAgentId : Option JStr)
    (edgeOutcome : FetchOutcome EdgeData) (cloud : Except JsError Snapshot)
    (cache : Cache) (caseBase : JStr) (entry : CacheEntry)
    (hget : cacheGet cache (cacheKeyOf caseBase) = some entry) :
    CACHE_TTL_MS = 30000 ∧
    (now - entry.timestamp < CACHE_TTL_MS →
       getCaseStatus now edgeAgentId edgeOutcome cloud cache caseBase =
         { result := Except.ok entry.data, cache := cache, edgeCalls := 0, cloudCalls := 0 } ∧
       getCaseStatusCloudOnly now cloud cache caseBase =
         { result := Except.ok entry.data, cache := cache, edgeCalls := 0, cloudCalls := 0 }) ∧
    (CACHE_TTL_MS ≤ now - entry.timestamp →
       getCaseStatus now edgeAgentId edgeOutcome cloud cache caseBase =
         getCaseStatusMiss now edgeAgentId edgeOutcome cloud cache caseBase ∧
       (getCaseStatusCloudOnly now cloud cache caseBase).cloudCalls = 1 ∧
       (∀ d, cloud = Except.ok d →
          (getCaseStatusCloudOnly now cloud cache caseBase).result = Except.ok d)) := by
  refine ⟨rfl, ?_, ?_⟩
  · intro hfresh
    constructor
    · unfold getCaseStatus
      simp [hget, hfresh]
    · unfold getCaseStatusCloudOnly
      simp [hget, hfresh]
  · intro hexp
    have hnf : ¬ (now - entry.timestamp < CACHE_TTL_MS) := Nat.not_lt.mpr hexp
    refine ⟨getCaseStatus_eq_miss now edgeAgentId edgeOutcome cloud cache caseBase
      (fun e he => by rw [hget] at he; cases he; exact hnf), ?_, ?_⟩
    · unfold getCaseStatusCloudOnly
      cases cloud <;> simp [hget, hnf]
    · intro d hd
      unfold getCaseStatusCloudOnly
      simp [hget, hnf, hd]

/-- Witness for C3 at a concrete input: an entry written at time 0,
read at time 10 (fresh: served from cache with no network) — obtained
by applying the TTL theorem. -/
theorem c3_witness :
    getCaseStatus 10 none FetchOutcome.timeout (Except.ok sampleSnapshot)
        [("AP000123".toList, { data := sampleSnapshot, timestamp := 0 })]
        ("AP000123".toList) =
      { result := Except.ok sampleSnapshot
        cache := [("AP000123".toList, { data := sampleSnapshot, timestamp := 0 })]
        edgeCalls := 0, cloudCalls := 0 } :=
  ((c3_cache_ttl 10 none FetchOutcome.timeout (Except.ok sampleSnapshot)
    [("AP000123".toList, { data := sampleSnapshot, timestamp := 0 })]
    ("AP000123".toList) { data := sampleSnapshot, timestamp := 0 }
    (by decide)).2.1 (by decide)).1

/-- Claim C4: after every successful attach or detach mutation for case
`X`, the handler deletes the cache entry for `X`'s uppercased
identifier before reporting success, so a subsequent `getCaseStatus(X)`
finds no cached entry and runs its full miss path (it can never return
a pre-mutation cache hit). -/
theorem c4_mutation_invalidates (edgeAgentId : Option JStr)
    (edgeOutcome : FetchOutcome EdgeLinkResp)
    (cloudAttach cloudDetach : Except JsError Unit)
    (cache : Cache) (caseBase : JStr) :
    ((handleAttachSlide edgeAgentId edgeOutcome cloudAttach cache caseBase).success = true →
       cacheGet (handleAttachSlide edgeAgentId edgeOutcome cloudAttach cache caseBase).cache
         (cacheKeyOf caseBase) = none) ∧
    ((handleDetachSlide edgeAgentId cloudDetach cache caseBase).success = true →
       cacheGet (handleDetachSlide edgeAgentId cloudDetach cache caseBase).cache
         (cacheKeyOf caseBase) = none) ∧
    (∀ now edgeAgentId2 edgeOutcome2 cloud2 c,
       cacheGet c (cacheKeyOf caseBase) = none →
       getCaseStatus now edgeAgentId2 edgeOutcome2 cloud2 c caseBase =
         getCaseStatusMiss now edgeAgentId2 edgeOutcome2 cloud2 c caseBase) := by
  refine ⟨?_, ?_, ?_⟩
  · intro hsucc
    unfold handleAttachSlide at *
    cases hres : (attachSlide edgeAgentId edgeOutcome cloudAttach).result with
    | ok u => simp [hres, cacheKeyOf]
              exact cacheGet_cacheDelete_self cache (jsToUpper caseBase)
    | error e => simp [hres] at hsucc
  · intro hsucc
    unfold handleDetachSlide at *
    cases cloudDetach with
    | ok u => simpa [cacheKeyOf] using cacheGet_cacheDelete_self cache (jsToUpper caseBase)
    | error e => simp at hsucc
  · intro now a2 o2 c2 c hc
    exact getCaseStatus_eq_miss now a2 o2 c2 c caseBase
      (fun e he => by rw [hc] at he; cases he)

/-- Witness for C4 at a concrete input: a cloud-path attach that
succeeds against a cache holding an entry for the case; afterwards the
entry is gone. -/
theorem c4_witness :
    cacheGet (handleAttachSlide none FetchOutcome.timeout (Except.ok ())
        [("AP000123".toList, { data := sampleSnapshot, timestamp := 0 })]
        ("ap000123".toList)).cache
      (cacheKeyOf ("ap000123".toList)) = none :=
  (c4_mutation_invalidates none FetchOutcome.timeout (Except.ok ()) (Except.ok ())
    [("AP000123".toList, { data := sampleSnapshot, timestamp := 0 })]
    ("ap000123".toList)).1 (by decide)

/-- Claim C6: `edgeCall` never raises an error to its caller; when the
edge agent identifier is unknown it returns Unavailable (`null`)
without attempting network I/O; and every failure mode — timeout,
transport error, non-success HTTP status, malformed response payload —
collapses to Unavailable. -/
theorem c6_edge_never_raises (edgeAgentId : Option JStr)
    (outcome : FetchOutcome EdgeData) :
    (∃ v, (edgeCall edgeAgentId outcome).1 = Except.ok v) ∧
    (edgeAgentId = none → edgeCall edgeAgentId outcome = (Except.ok none, false)) ∧
    (hasEdgeFetchFailed outcome = true →
       (edgeCall edgeAgentId outcome).1 = Except.ok none) := by
  refine ⟨?_, ?_, ?_⟩
  · cases edgeAgentId with
    | none => exact ⟨none, rfl⟩
    | some a => exact ⟨jsTryCatchNull (edgeFetchRaw outcome), rfl⟩
  · intro h
    rw [h]
    rfl
  · intro hfail
    cases edgeAgentId with
    | none => rfl
    | some a =>
        cases outcome with
        | timeout => rfl
        | transportError => rfl
        | response status body =>
            unfold hasEdgeFetchFailed at hfail
            unfold edgeCall edgeFetchRaw jsTryCatchNull
            by_cases hok : responseOk status = true
            · cases body with
              | none => simp [hok]
              | some d => simp [hok, Option.isNone] at hfail
            · simp [Bool.of_not_eq_true hok]

/-- Witness for C6 at a concrete input: unknown agent id, timed-out
fetch — `edgeCall` returns Unavailable without network I/O. -/
theorem c6_witness :
    edgeCall (α := EdgeData) none FetchOutcome.timeout = (Except.ok none, false) :=
  (c6_edge_never_raises none FetchOutcome.timeout).2.1 rfl

/-- Claim C7: when both a device token and a legacy API key are
configured, the headers of an outbound `apiCall` contain the
`x-device-token` header carrying the device token, never an
`x-supernavi-key` header, and exactly one authentication header in
total. -/
theorem c7_auth_precedence (config : Config) (optHeaders : List (JStr × JStr))
    (hdt : config.deviceToken ≠ []) (hk : config.apiKey ≠ [])
    (hopt : ∀ p ∈ optHeaders, p.1 ≠ "x-device-token".toList ∧
      p.1 ≠ "x-supernavi-key".toList) :
    ("x-device-token".toList, config.deviceToken) ∈ apiCallHeaders config optHeaders ∧
    (∀ p ∈ apiCallHeaders config optHeaders, p.1 ≠ "x-supernavi-key".toList) ∧
    ((apiCallHeaders config optHeaders).filter
       (fun p => p.1 = "x-device-token".toList ∨
         p.1 = "x-supernavi-key".toList)).length = 1 := by
  have hauth : authHeaders config = [("x-device-token".toList, config.deviceToken)] := by
    unfold authHeaders
    rw [if_pos hdt]
  refine ⟨?_, ?_, ?_⟩
  · unfold apiCallHeaders
    rw [hauth]
    simp
  · intro p hp
    unfold apiCallHeaders at hp
    rw [hauth] at hp
    rcases List.mem_append.mp hp with hl | hr
    · rcases List.mem_cons.mp hl with h1 | h2
      · rw [h1]; decide
      · rcases List.mem_cons.mp h2 with h3 | h4
        · rw [h3]
          show ¬ ("x-device-token".toList = "x-supernavi-key".toList)
          decide
        · cases h4
    · exact (hopt p hr).2
  · unfold apiCallHeaders
    rw [hauth, List.filter_append]
    have hno : optHeaders.filter
        (fun p => p.1 = "x-device-token".toList ∨ p.1 = "x-supernavi-key".toList) = [] := by
      rw [List.filter_eq_nil_iff]
      intro p hp
      have h := hopt p hp
      simp only [decide_eq_true_eq, not_or]
      exact ⟨h.1, h.2⟩
    rw [hno]
    simp

/-- Witness for C7 at a concrete configuration with both credentials
set and no caller-supplied headers. -/
theorem c7_witness :
    ("x-device-token".toList,
       ("tok123".toList : JStr)) ∈ apiCallHeaders
      { apiBaseUrl := "https://cloud.supernavi.app".toList
        apiKey := "legacy-key".toList
        deviceToken := "tok123".toList, debug := false } [] :=
  (c7_auth_precedence
    { apiBaseUrl := "https://cloud.supernavi.app".toList
      apiKey := "legacy-key".toList
      deviceToken := "tok123".toList, debug := false } []
    (by decide) (by decide) (by intro p hp; cases hp)).1

/-- Claim C2 counterexample: with the current case pointer on
`AP000002`, a `CASE_STATUS` result for the different case `AP000001`
is still delivered to the UI (`handleStatusUpdate` runs and the stale
result is stored) — the listener performs no comparison against the
current pointer, so the claimed silent drop does not happen. -/
theorem c2_counterexample :
    some ("AP000001".toList) ≠
      (ContentState.mk (some ("AP000002".toList)) none).currentCaseBase ∧
    (onCaseStatusMessage (ContentState.mk (some ("AP000002".toList)) none)
      { caseBase := "AP000001".toList, data := sampleSnapshot }).2 = true ∧
    (onCaseStatusMessage (ContentState.mk (some ("AP000002".toList)) none)
      { caseBase := "AP000001".toList, data := sampleSnapshot }).1.currentStatus =
      some { caseBase := "AP000001".toList, data := sampleSnapshot } := by
  refine ⟨by decide, rfl, rfl⟩

/-- Claim C2 as amended: the `CASE_STATUS` listener delivers every
result to the UI unconditionally — even when the result's subject case
differs from the current case pointer, `handleStatusUpdate` runs and
the message is stored as the current status; no stale result is ever
dropped. -/
theorem c2_amended (st : ContentState) (msg : CaseStatusMsg)
    (hstale : some msg.caseBase ≠ st.currentCaseBase) :
    (onCaseStatusMessage st msg).2 = true ∧
    (onCaseStatusMessage st msg).1.currentStatus = some msg ∧
    (onCaseStatusMessage st msg).1.currentCaseBase = st.currentCaseBase :=
  ⟨rfl, rfl, rfl⟩

/-- Witness for the amended C2 at a concrete stale input. -/
theorem c2_amended_witness :
    (onCaseStatusMessage (ContentState.mk (some ("AP000004".toList)) none)
      { caseBase := "AP000003".toList, data := sampleSnapshot }).2 = true :=
  (c2_amended (ContentState.mk (some ("AP000004".toList)) none)
    { caseBase := "AP000003".toList, data := sampleSnapshot } (by decide)).1

/-- Claim C5 counterexample: a detach for case `AP000123` with an edge
agent available (`some "agent1"`) performs no edge network I/O at all
and goes straight to the cloud — so it is not true that both mutation
operations prefer the edge path. -/
theorem c5_counterexample :
    (some ("agent1".toList) : Option JStr).isSome = true ∧
    (handleDetachSlide (some ("agent1".toList)) (Except.ok ()) []
      ("AP000123".toList)).edgeFetched = false ∧
    (handleDetachSlide (some ("agent1".toList)) (Except.ok ()) []
      ("AP000123".toList)).cloudCalls = 1 := by
  refine ⟨rfl, rfl, rfl⟩

/-- Claim C5 as amended: the attach operation prefers the edge path —
on edge success it does not run the awaited cloud fallback, it
best-effort mirrors the mutation to the cloud, and a failed mirror is
logged only while attach still reports success; the detach operation,
however, always goes directly to the cloud and never attempts the edge
path, even when an edge agent is available. -/
theorem c5_amended (edgeAgentId : Option JStr)
    (edgeOutcome : FetchOutcome EdgeLinkResp)
    (cloudAttach cloudDetach : Except JsError Unit)
    (cache : Cache) (caseBase : JStr) (r : EdgeLinkResp)
    (hedge : edgeCallValue edgeAgentId edgeOutcome = some r)
    (hok : r.ok = true) :
    (attachSlide edgeAgentId edgeOutcome cloudAttach).result = Except.ok () ∧
    (attachSlide edgeAgentId edgeOutcome cloudAttach).cloudFallbackCalled = false ∧
    (attachSlide edgeAgentId edgeOutcome cloudAttach).cloudMirrorCalled = true ∧
    (∀ e, cloudAttach = Except.error e →
       (attachSlide edgeAgentId edgeOutcome cloudAttach).mirrorErrorLogged = true ∧
       (attachSlide edgeAgentId edgeOutcome cloudAttach).result = Except.ok ()) ∧
    (handleDetachSlide edgeAgentId cloudDetach cache caseBase).edgeFetched = false ∧
    (handleDetachSlide edgeAgentId cloudDetach cache caseBase).cloudCalls = 1 := by
  have ha : attachSlide edgeAgentId edgeOutcome cloudAttach =
      { result := Except.ok (), edgeFetched := edgeAgentId.isSome
        cloudMirrorCalled := true
        mirrorErrorLogged := exceptIsError cloudAttach
        cloudFallbackCalled := false } := by
    unfold attachSlide
    rw [hedge]
    simp [hok]
  refine ⟨by rw [ha], by rw [ha], by rw [ha], ?_, ?_, ?_⟩
  · intro e he
    rw [ha, he]
    exact ⟨rfl, rfl⟩
  · unfold handleDetachSlide
    cases cloudDetach <;> rfl
  · unfold handleDetachSlide
    cases cloudDetach <;> rfl

/-- Witness for the amended C5 at a concrete input: edge agent known,
edge link succeeds, cloud mirror fails with a 500 — attach still
reports success. -/
theorem c5_amended_witness :
    (attachSlide (some ("agent1".toList))
      (FetchOutcome.response 200 (some { ok := true }))
      (Except.error (JsError.apiError 500))).result = Except.ok () :=
  (c5_amended (some ("agent1".toList))
    (FetchOutcome.response 200 (some { ok := true }))
    (Except.error (JsError.apiError 500)) (Except.ok ()) [] ("AP000123".toList)
    { ok := true } (by decide) rfl).1

/-- Claim C8: textual case identifiers that alias to the same canonical
form (uppercase, `PA` prefix collapsed to `AP` — the content script's
`normalizePrefix`) read and write the same cache entry: the background
cache key computed for them is the same (and is the canonical form
itself), so every cache read, cache write and full status resolution
coincide. -/
theorem c8_canonical_same_cache_entry (a b : JStr)
    (h : normalizePrefix a = normalizePrefix b) :
    cacheKeyOf (normalizePrefix a) = cacheKeyOf (normalizePrefix b) ∧
    cacheKeyOf (normalizePrefix a) = normalizePrefix a ∧
    (∀ cache : Cache, cacheGet cache (cacheKeyOf (normalizePrefix a)) =
       cacheGet cache (cacheKeyOf (normalizePrefix b))) ∧
    (∀ (cache : Cache) (e : CacheEntry),
       cacheSet cache (cacheKeyOf (normalizePrefix a)) e =
       cacheSet cache (cacheKeyOf (normalizePrefix b)) e) ∧
    (∀ now edgeAgentId edgeOutcome cloud cache,
       getCaseStatus now edgeAgentId edgeOutcome cloud cache (normalizePrefix a) =
       getCaseStatus now edgeAgentId edgeOutcome cloud cache (normalizePrefix b)) := by
  rw [h]
  exact ⟨rfl, cacheKeyOf_normalizePrefix b, fun _ => rfl, fun _ _ => rfl,
    fun _ _ _ _ _ => rfl⟩

/-- Witness for C8 at the concrete aliases `pa123456` and `AP123456`:
both canonicalize to `AP123456` and get the same cache key. -/
theorem c8_witness :
    cacheKeyOf (normalizePrefix ("pa123456".toList)) =
      cacheKeyOf (normalizePrefix ("AP123456".toList)) :=
  (c8_canonical_same_cache_entry ("pa123456".toList) ("AP123456".toList)
    (by decide)).1

/-- Claim C9 counterexample: on a cache miss with the edge Unavailable
and the cloud returning a snapshot that carries no provenance field,
`getCaseStatus` returns and caches that snapshot exactly as received —
its `source` is `none`, not `"cloud"`; the engine adds no cloud
provenance tag. -/
theorem c9_counterexample :
    (getCaseStatus 5 none FetchOutcome.timeout (Except.ok sampleSnapshot)
      [] ("AP000123".toList)).result = Except.ok sampleSnapshot ∧
    sampleSnapshot.source ≠ some ("cloud".toList) ∧
    cacheGet (getCaseStatus 5 none FetchOutcome.timeout (Except.ok sampleSnapshot)
        [] ("AP000123".toList)).cache (cacheKeyOf ("AP000123".toList)) =
      some { data := sampleSnapshot, timestamp := 5 } := by
  refine ⟨rfl, by decide, by decide⟩

/-- Claim C9 as amended: when `getCaseStatus` falls back to cloud
resolution, the cloud payload is written to the cache and returned
unchanged — the engine performs no mapping and adds no provenance tag
(any `"cloud"` provenance would have to come from the payload itself);
only edge results are mapped, and those are always tagged with
provenance `"edge"`. -/
theorem c9_amended (now : Nat) (edgeAgentId : Option JStr)
    (edgeOutcome : FetchOutcome EdgeData) (cloud : Except JsError Snapshot)
    (cache : Cache) (caseBase : JStr) (data : Snapshot)
    (hcloud : cloud = Except.ok data)
    (hnoslides : ∀ d, edgeCallValue edgeAgentId edgeOutcome = some d →
      d.slides = none) :
    (getCaseStatusMiss now edgeAgentId edgeOutcome cloud cache caseBase).result =
      Except.ok data ∧
    (getCaseStatusMiss now edgeAgentId edgeOutcome cloud cache caseBase).cache =
      cacheSet cache (cacheKeyOf caseBase) { data := data, timestamp := now } ∧
    (∀ (agentId cb : JStr) (d : EdgeData) (slides : List EdgeSlide),
       (mapEdgeSnapshot agentId cb d slides).source = some ("edge".toList)) := by
  subst hcloud
  refine ⟨?_, ?_, fun _ _ _ _ => rfl⟩ <;>
    · unfold getCaseStatusMiss
      cases he : edgeCallValue edgeAgentId edgeOutcome with
      | none => simp
      | some d => simp [hnoslides d he]

/-- Witness for the amended C9 at a concrete input: edge Unavailable,
cloud returns the untagged snapshot, which comes back unchanged. -/
theorem c9_amended_witness :
    (getCaseStatusMiss 7 none FetchOutcome.timeout (Except.ok sampleSnapshot)
      [] ("AP000123".toList)).result = Except.ok sampleSnapshot :=
  (c9_amended 7 none FetchOutcome.timeout (Except.ok sampleSnapshot) []
    ("AP000123".toList) sampleSnapshot rfl
    (fun d hd => by cases hd)).1

/-- Claim C10: the pairing-claim handler is exempt from the credential
precondition guarding every other cloud call — it issues its HTTP
request with only a `Content-Type` header (no authentication header),
and it proceeds even when neither a device token nor a legacy key is
configured, while `apiCall` under the same configuration fails fast
with the not-configured error and performs no network I/O. -/
theorem c10_pairing_exempt (config : Config)
    (outcome : FetchOutcome PairingResponse)
    (hno : config.deviceToken = [] ∧ config.apiKey = []) :
    (claimPairingCode config outcome).requestHeaders =
      some [("Content-Type".toList, "application/json".toList)] ∧
    (∀ hs p, (claimPairingCode config outcome).requestHeaders = some hs →
       p ∈ hs → p.1 ≠ "x-device-token".toList ∧ p.1 ≠ "x-supernavi-key".toList) ∧
    (∀ o : FetchOutcome Snapshot, apiCall config o =
       (Except.error JsError.notConfigured, false)) := by
  refine ⟨rfl, ?_, ?_⟩
  · intro hs p hhs hp
    have : hs = [("Content-Type".toList, "application/json".toList)] := by
      injection hhs with h1
      exact h1.symm
    subst this
    rcases List.mem_cons.mp hp with h1 | h2
    · rw [h1]
      constructor
      · show ¬ ("Content-Type".toList = "x-device-token".toList)
        decide
      · show ¬ ("Content-Type".toList = "x-supernavi-key".toList)
        decide
    · cases h2
  · intro o
    unfold apiCall
    rw [if_pos hno]

/-- Witness for C10 at a concrete unconfigured setup: the pairing
request still goes out with only the Content-Type header. -/
theorem c10_witness :
    (claimPairingCode
      { apiBaseUrl := "https://cloud.supernavi.app".toList, apiKey := []
        deviceToken := [], debug := false }
      (FetchOutcome.response 200
        (some { deviceToken := "tok".toList, deviceId := "id1".toList
                deviceName := "Lab PC".toList }))).requestHeaders =
      some [("Content-Type".toList, "application/json".toList)] :=
  (c10_pairing_exempt
    { apiBaseUrl := "https://cloud.supernavi.app".toList, apiKey := []
      deviceToken := [], debug := false }
    (FetchOutcome.response 200
      (some { deviceToken := "tok".toList, deviceId := "id1".toList
              deviceName := "Lab PC".toList }))
    ⟨rfl, rfl⟩).1

end SuperNavi
